import Mathlib

/-!
Verification development for the NES emulator core: a shallow embedding of
the cartridge loader, the iNES header parser, the MMC3 and UxROM banking
logic, and the per-cycle CPU pipeline state machine, together with theorems
settling the frozen claims about them.

Machine integers are embedded as Nat; wrapping arithmetic is made explicit
with % 256 / % 65536 at exactly the places the source uses wrapping
operations.  Rust bit operations are written with Nat.land / Nat.lor /
Nat.shiftLeft / Nat.shiftRight.
-/

namespace Nes

/-- Name-table mirroring modes (cartridge/mirroring.rs declares these; the
claims only inspect which mode is stored, never the resolver itself). -/
inductive MirroringMode
  | Horizontal
  | Vertical
  | SingleScreenLow
  | SingleScreenHigh
  | FourScreen
  deriving DecidableEq, Repr

/-- CartridgeHeader (cartridge/mod.rs). -/
structure CartridgeHeader where
  prg_rom_16kb_units : Nat
  chr_rom_8kb_units : Nat
  mapper : Nat
  mirroring : MirroringMode
  has_ram : Bool
  deriving DecidableEq, Repr

/-- CartridgeHeader::new (cartridge/mod.rs lines 68-80).
mapper: (flags_6 >> 4) | (flags_7 & 0b1111_0000);
mirroring: match (flags_6 & 1 == 0, flags_6 & 0b1000 == 0);
has_ram: flags_6 & 0b10 == 0b10. -/
def CartridgeHeader.new (prg_rom_16kb_units chr_rom_8kb_units flags_6 flags_7 : Nat) :
    CartridgeHeader :=
  { prg_rom_16kb_units := prg_rom_16kb_units
    chr_rom_8kb_units := chr_rom_8kb_units
    mapper := Nat.lor (flags_6 >>> 4) (Nat.land flags_7 0xF0)
    mirroring :=
      match (Nat.land flags_6 1 == 0, Nat.land flags_6 8 == 0) with
      | (true, true) => MirroringMode.Horizontal
      | (false, true) => MirroringMode.Vertical
      | (_, false) => MirroringMode.FourScreen
    has_ram := Nat.land flags_6 2 == 2 }

/-- Outcome of cartridge::from_file after the bytes have been acquired
(zip/file IO is out of scope).  The source returns
Result<(CpuBus, PpuBus, CartridgeHeader), CartridgeError>; the three error
sites plus the panicking constructor paths are distinguished here. -/
inductive LoadOutcome
  | errHeaderTooShort
  | errSizeMismatch
  | errUnsupportedMapper (mapper : Nat)
  | panicked
  | ok (header : CartridgeHeader)
  deriving DecidableEq, Repr

/-- bytes[i] of the rom image (the source indexes a Vec<u8>). -/
def byteAt (bytes : List Nat) (i : Nat) : Nat := bytes.getD i 0

/-- The header from_file builds: CartridgeHeader::new(bytes[4], bytes[5], bytes[6], bytes[7]). -/
def headerOf (bytes : List Nat) : CartridgeHeader :=
  CartridgeHeader.new (byteAt bytes 4) (byteAt bytes 5) (byteAt bytes 6) (byteAt bytes 7)

/-- mmc3::from_header (mmc3.rs lines 284-306) panics when chr_rom is None
(chr_rom.unwrap() on a CHR-RAM cartridge).  With debug arithmetic checks the
u8 products prg_units * 2 / chr_units * 2 and the u8 subtraction
total_prg_banks - 2 inside MMC3PrgChip::new also panic when the unit counts
are 0 or at least 128. -/
def mmc3LoadPanics (prg_units chr_units : Nat) (chrRomPresent : Bool) : Bool :=
  prg_units == 0 || decide (128 ≤ prg_units) || !chrRomPresent || decide (128 ≤ chr_units)

/-- The mapper dispatch at the end of from_file (cartridge/mod.rs lines
164-173).  Mapper construction details: uxrom::from_header computes
prg_rom_16kb_units - 1 in u8, which panics (debug) when the unit count is 0;
nrom/mmc1/cnrom construction is modelled from the spec as succeeding (their
sources are not under src/). -/
def dispatchMapper (header : CartridgeHeader) (chrRomPresent : Bool) : LoadOutcome :=
  if header.mapper = 0 then LoadOutcome.ok header
  else if header.mapper = 1 then LoadOutcome.ok header
  else if header.mapper = 2 ∨ header.mapper = 94 then
    (if header.prg_rom_16kb_units = 0 then LoadOutcome.panicked else LoadOutcome.ok header)
  else if header.mapper = 3 then LoadOutcome.ok header
  else if header.mapper = 4 then
    (if mmc3LoadPanics header.prg_rom_16kb_units header.chr_rom_8kb_units chrRomPresent
     then LoadOutcome.panicked
     else LoadOutcome.ok header)
  else LoadOutcome.errUnsupportedMapper header.mapper

/-- from_file (cartridge/mod.rs lines 138-173), from the point where the raw
bytes are in hand: the length-vs-header checks, the header parse, the
prg/chr slicing and the mapper dispatch.  There is no check of the iNES
magic bytes anywhere in the source. -/
def loadOutcome (bytes : List Nat) : LoadOutcome :=
  if bytes.length < 0x10 then LoadOutcome.errHeaderTooShort
  else if bytes.length <
      0x10 + (headerOf bytes).prg_rom_16kb_units * 0x4000 +
        (headerOf bytes).chr_rom_8kb_units * 0x2000 then
    -- bytes.len() < chr_rom_end, where chr_rom_end = prg_rom_end + chr units
    -- * 0x2000 and prg_rom_end = 0x10 + prg units * 0x4000
    LoadOutcome.errSizeMismatch
  else dispatchMapper (headerOf bytes) (!((headerOf bytes).chr_rom_8kb_units == 0))

/-- PRGBankMode (mmc3.rs lines 7-13). -/
inductive PRGBankMode
  | LowBankSwappable
  | HighBankSwappable
  deriving DecidableEq, Repr

/-- MMC3PrgChip (mmc3.rs lines 15-24).  The [u8; 4] arrays prg_banks and
prg_bank_offsets are spelled out as four numbered fields; prg_ram is 0x2000
bytes of RAM indexed from 0. -/
structure MMC3PrgChip where
  prg_rom : List Nat
  total_prg_banks : Nat
  prg_ram : Option (Nat → Nat)
  prg_banks0 : Nat
  prg_banks1 : Nat
  prg_banks2 : Nat
  prg_banks3 : Nat
  prg_bank_offsets0 : Nat
  prg_bank_offsets1 : Nat
  prg_bank_offsets2 : Nat
  prg_bank_offsets3 : Nat
  bank_mode : PRGBankMode
  bank_select : Nat

/-- MMC3PrgChip::new (mmc3.rs lines 27-44). -/
def MMC3PrgChip.new (prg_rom : List Nat) (total_prg_banks : Nat)
    (prg_ram : Option (Nat → Nat)) : MMC3PrgChip :=
  { prg_rom := prg_rom
    total_prg_banks := total_prg_banks
    prg_ram := prg_ram
    prg_banks0 := 0
    prg_banks1 := 1
    prg_banks2 := total_prg_banks - 2
    prg_banks3 := total_prg_banks - 1
    prg_bank_offsets0 := 0x0000
    prg_bank_offsets1 := 0x2000
    prg_bank_offsets2 := (total_prg_banks - 2) * 0x2000
    prg_bank_offsets3 := (total_prg_banks - 1) * 0x2000
    bank_mode := PRGBankMode.LowBankSwappable
    bank_select := 0 }

/-- MMC3PrgChip::update_bank_offsets (mmc3.rs lines 46-60).  Note that only
the offset slot of the currently swappable window is recomputed; the other
slot keeps whatever value it last had. -/
def MMC3PrgChip.update_bank_offsets (c : MMC3PrgChip) : MMC3PrgChip :=
  match c.bank_mode with
  | PRGBankMode.LowBankSwappable => { c with prg_bank_offsets0 := c.prg_banks0 * 0x2000 }
  | PRGBankMode.HighBankSwappable => { c with prg_bank_offsets2 := c.prg_banks0 * 0x2000 }

/-- The prg_rom index computed by MMC3PrgChip::read_byte for addresses in
$8000-$FFFF (mmc3.rs lines 71-89): adj_addr + prg_bank_offsets[w]. -/
def MMC3PrgChip.prgRomIndex (c : MMC3PrgChip) (address : Nat) : Nat :=
  if 0x8000 ≤ address ∧ address ≤ 0x9FFF then address - 0x8000 + c.prg_bank_offsets0
  else if 0xA000 ≤ address ∧ address ≤ 0xBFFF then address - 0x8000 + c.prg_bank_offsets1
  else if 0xC000 ≤ address ∧ address ≤ 0xDFFF then address - 0xC000 + c.prg_bank_offsets2
  else if 0xE000 ≤ address ∧ address ≤ 0xFFFF then address - 0xE000 + c.prg_bank_offsets3
  else 0

/-- MMC3PrgChip::read_byte of the CpuCartridgeAddressBus impl (mmc3.rs lines
64-92). -/
def MMC3PrgChip.read_byte (c : MMC3PrgChip) (address : Nat) : Nat :=
  if 0x6000 ≤ address ∧ address ≤ 0x7FFF then
    match c.prg_ram with
    | some ram => ram (address - 0x6000)
    | none => 0
  else if 0x8000 ≤ address ∧ address ≤ 0xFFFF then
    c.prg_rom.getD (c.prgRomIndex address) 0
  else 0

/-- MMC3PrgChip::write_byte of the CpuCartridgeAddressBus impl (mmc3.rs lines
94-133).  The $6000-$7FFF arm is the Rust
`if let Some(mut ram) = self.prg_ram { ram[(address - 0x6000) as usize] = value }`:
[u8; 0x2000] is a Copy type, so the pattern binds a copy of the array, the
store mutates that copy, and the copy is dropped at the end of the block —
the chip itself is left unchanged. -/
def MMC3PrgChip.write_byte (c : MMC3PrgChip) (address value : Nat) : MMC3PrgChip :=
  if 0x6000 ≤ address ∧ address ≤ 0x7FFF then
    match c.prg_ram with
    | some _ => c
    | none => c
  else if 0x8000 ≤ address ∧ address ≤ 0x9FFF then
    if Nat.land address 1 = 0 then
      ({ c with
          bank_select := Nat.land value 7
          bank_mode :=
            if Nat.land value 0x40 = 0 then PRGBankMode.LowBankSwappable
            else PRGBankMode.HighBankSwappable }).update_bank_offsets
    else
      (if c.bank_select = 6 then { c with prg_banks0 := value % c.total_prg_banks }
       else if c.bank_select = 7 then { c with prg_banks3 := value % c.total_prg_banks }
       else c).update_bank_offsets
  else c

/-- CHRBankMode (mmc3.rs lines 136-142). -/
inductive CHRBankMode
  | LowBank2KB
  | HighBank2KB
  deriving DecidableEq, Repr

/-- MMC3ChrChip (mmc3.rs lines 144-154).  The [u8; 8] arrays chr_banks and
chr_bank_offsets are spelled out as numbered fields.  The 4 KiB ppu_vram
name-table array is not consulted by any claim and is omitted. -/
structure MMC3ChrChip where
  chr_data : List Nat
  total_chr_banks : Nat
  chr_banks0 : Nat
  chr_banks1 : Nat
  chr_banks2 : Nat
  chr_banks3 : Nat
  chr_banks4 : Nat
  chr_banks5 : Nat
  chr_banks6 : Nat
  chr_banks7 : Nat
  chr_bank_offsets0 : Nat
  chr_bank_offsets1 : Nat
  chr_bank_offsets2 : Nat
  chr_bank_offsets3 : Nat
  chr_bank_offsets4 : Nat
  chr_bank_offsets5 : Nat
  chr_bank_offsets6 : Nat
  chr_bank_offsets7 : Nat
  mirroring_mode : MirroringMode
  bank_mode : CHRBankMode
  bank_select : Nat

/-- MMC3ChrChip::new (mmc3.rs lines 156-168). -/
def MMC3ChrChip.new (chr_rom : List Nat) (banks : Nat) (mirroring_mode : MirroringMode) :
    MMC3ChrChip :=
  { chr_data := chr_rom
    total_chr_banks := banks
    chr_banks0 := 0
    chr_banks1 := 1
    chr_banks2 := 2
    chr_banks3 := 3
    chr_banks4 := 4
    chr_banks5 := 5
    chr_banks6 := 6
    chr_banks7 := 7
    chr_bank_offsets0 := 0x0000
    chr_bank_offsets1 := 0x0400
    chr_bank_offsets2 := 0x0800
    chr_bank_offsets3 := 0x0C00
    chr_bank_offsets4 := 0x1000
    chr_bank_offsets5 := 0x1400
    chr_bank_offsets6 := 0x1800
    chr_bank_offsets7 := 0x1C00
    mirroring_mode := mirroring_mode
    bank_mode := CHRBankMode.LowBank2KB
    bank_select := 0 }

/-- MMC3ChrChip::update_bank_offsets (mmc3.rs lines 170-188), with the two
loops unrolled.  LowBank2KB: chr_bank_offsets[i] = chr_banks[i] * 0x400.
HighBank2KB: chr_bank_offsets[(i + 4) % 8] = chr_banks[i] * 0x400. -/
def MMC3ChrChip.update_bank_offsets (c : MMC3ChrChip) : MMC3ChrChip :=
  match c.bank_mode with
  | CHRBankMode.LowBank2KB =>
    { c with
        chr_bank_offsets0 := c.chr_banks0 * 0x400
        chr_bank_offsets1 := c.chr_banks1 * 0x400
        chr_bank_offsets2 := c.chr_banks2 * 0x400
        chr_bank_offsets3 := c.chr_banks3 * 0x400
        chr_bank_offsets4 := c.chr_banks4 * 0x400
        chr_bank_offsets5 := c.chr_banks5 * 0x400
        chr_bank_offsets6 := c.chr_banks6 * 0x400
        chr_bank_offsets7 := c.chr_banks7 * 0x400 }
  | CHRBankMode.HighBank2KB =>
    { c with
        chr_bank_offsets4 := c.chr_banks0 * 0x400
        chr_bank_offsets5 := c.chr_banks1 * 0x400
        chr_bank_offsets6 := c.chr_banks2 * 0x400
        chr_bank_offsets7 := c.chr_banks3 * 0x400
        chr_bank_offsets0 := c.chr_banks4 * 0x400
        chr_bank_offsets1 := c.chr_banks5 * 0x400
        chr_bank_offsets2 := c.chr_banks6 * 0x400
        chr_bank_offsets3 := c.chr_banks7 * 0x400 }

/-- The chr_data index computed by MMC3ChrChip::read_byte for addresses in
$0000-$1FFF (mmc3.rs lines 194-201): address - window_base + chr_bank_offsets[w]. -/
def MMC3ChrChip.chrDataIndex (c : MMC3ChrChip) (address : Nat) : Nat :=
  if address ≤ 0x03FF then address - 0x0000 + c.chr_bank_offsets0
  else if address ≤ 0x07FF then address - 0x0400 + c.chr_bank_offsets1
  else if address ≤ 0x0BFF then address - 0x0800 + c.chr_bank_offsets2
  else if address ≤ 0x0FFF then address - 0x0C00 + c.chr_bank_offsets3
  else if address ≤ 0x13FF then address - 0x1000 + c.chr_bank_offsets4
  else if address ≤ 0x17FF then address - 0x1400 + c.chr_bank_offsets5
  else if address ≤ 0x1BFF then address - 0x1800 + c.chr_bank_offsets6
  else address - 0x1C00 + c.chr_bank_offsets7

/-- MMC3ChrChip::cpu_write_byte of the PpuCartridgeAddressBus impl (mmc3.rs
lines 228-281): bank select / bank data on $8000-$9FFF by address parity, and
the mirroring register on even $A000-$BFFF addresses (ignored for four-screen
cartridges); IRQ registers are latched nowhere (known-deferred). -/
def MMC3ChrChip.cpu_write_byte (c : MMC3ChrChip) (address value : Nat) : MMC3ChrChip :=
  if 0x8000 ≤ address ∧ address ≤ 0x9FFF then
    if Nat.land address 1 = 0 then
      ({ c with
          bank_select := Nat.land value 7
          bank_mode :=
            if Nat.land value 0x80 = 0 then CHRBankMode.LowBank2KB
            else CHRBankMode.HighBank2KB }).update_bank_offsets
    else
      (if c.bank_select = 0 then
        { c with
            chr_banks0 := Nat.land value 0xFE % c.total_chr_banks
            chr_banks1 := Nat.land value 0xFE % c.total_chr_banks + 1 }
       else if c.bank_select = 1 then
        { c with
            chr_banks2 := Nat.land value 0xFE % c.total_chr_banks
            chr_banks3 := Nat.land value 0xFE % c.total_chr_banks + 1 }
       else if c.bank_select = 2 then { c with chr_banks4 := value % c.total_chr_banks }
       else if c.bank_select = 3 then { c with chr_banks5 := value % c.total_chr_banks }
       else if c.bank_select = 4 then { c with chr_banks6 := value % c.total_chr_banks }
       else if c.bank_select = 5 then { c with chr_banks7 := value % c.total_chr_banks }
       else c).update_bank_offsets
  else if 0xA000 ≤ address ∧ address ≤ 0xBFFF then
    if Nat.land address 1 = 0 ∧ c.mirroring_mode ≠ MirroringMode.FourScreen then
      { c with
          mirroring_mode :=
            if Nat.land value 1 = 0 then MirroringMode.Vertical else MirroringMode.Horizontal }
    else c
  else c

/-- The state of the BankedPrgChip used by UxROM: prg_rom, total_banks, the
[u8; 2] banks and [usize; 2] bank_offsets arrays (the BankedPrgChip struct
itself lives in the absent cartridge/mappers/mod.rs; its fields are exactly
those that uxrom.rs passes to BankedPrgChip::new and that uxrom_update_banks
mutates). -/
structure UxRomPrgChip where
  prg_rom : List Nat
  total_banks : Nat
  banks0 : Nat
  banks1 : Nat
  bank_offsets0 : Nat
  bank_offsets1 : Nat

/-- uxrom_update_banks (uxrom.rs lines 7-13): on any write to $8000-$FFFF,
banks[0] = value % total_banks and bank_offsets[0] = banks[0] * 0x4000. -/
def uxrom_update_banks (address value : Nat) (c : UxRomPrgChip) : UxRomPrgChip :=
  if 0x8000 ≤ address ∧ address ≤ 0xFFFF then
    { c with
        banks0 := value % c.total_banks
        bank_offsets0 := value % c.total_banks * 0x4000 }
  else c

/-- The PRG side of uxrom::from_header (uxrom.rs lines 26-33):
banks [0, units - 1], offsets [0, (units - 1) * 0x4000], total = units. -/
def UxRomPrgChip.fromHeader (prg_rom : List Nat) (prg_rom_16kb_units : Nat) : UxRomPrgChip :=
  { prg_rom := prg_rom
    total_banks := prg_rom_16kb_units
    banks0 := 0
    banks1 := prg_rom_16kb_units - 1
    bank_offsets0 := 0
    bank_offsets1 := (prg_rom_16kb_units - 1) * 0x4000 }

/-- The subset of Operation (cpu/opcodes.rs, absent from src/) used by the
claims about the pipeline. -/
inductive Operation
  | LDA
  | STA
  | NOP
  deriving DecidableEq, Repr

/-- AddressingMode as matched by cpu/mod.rs. -/
inductive AddressingMode
  | Accumulator
  | Implied
  | Absolute
  | AbsoluteXIndexed
  | AbsoluteYIndexed
  | Immediate
  | Indirect
  | IndirectXIndexed
  | IndirectYIndexed
  | Relative
  | ZeroPage
  | ZeroPageXIndexed
  | ZeroPageYIndexed
  deriving DecidableEq, Repr

/-- InstructionType as matched by cpu/mod.rs (declared in the absent
cpu/opcodes.rs; the spec classifies operations as Read, Write,
ReadModifyWrite, Jump, or Branch/Stack/Implied). -/
inductive InstructionType
  | Read
  | Write
  | ReadModifyWrite
  | Jump
  | Other
  deriving DecidableEq, Repr

/-- Modelled from the spec: Operation::instruction_type for the modelled
operations (LDA is a Read instruction, STA a Write instruction, NOP
implied). -/
def Operation.instruction_type : Operation → InstructionType
  | Operation.LDA => InstructionType.Read
  | Operation.STA => InstructionType.Write
  | Operation.NOP => InstructionType.Other

/-- An entry of the static opcode table: the fields of Opcode that
cpu/mod.rs consults. -/
structure Opcode where
  operation : Operation
  address_mode : AddressingMode
  deriving DecidableEq, Repr

/-- Modelled from the spec: the 256-entry OPCODE_TABLE lives in the absent
cpu/opcodes.rs.  Only the entries the claims exercise are populated: 0xB1 is
LDA (Indirect),Y and 0x85 is STA ZeroPage per the 6502 opcode map behind the
spec's cycle tables; everything else defaults to the implied NOP shape. -/
def opcodeTable (b : Nat) : Opcode :=
  if b = 0xB1 then { operation := Operation.LDA, address_mode := AddressingMode.IndirectYIndexed }
  else if b = 0x85 then { operation := Operation.STA, address_mode := AddressingMode.ZeroPage }
  else { operation := Operation.NOP, address_mode := AddressingMode.Implied }

/-- CpuState (cpu/mod.rs lines 16-72), with the static opcode reference
embedded by value. -/
inductive CpuState
  | FetchOpcode
  | ThrowawayRead (opcode : Opcode) (operand : Option Nat)
  | ReadingOperand (opcode : Opcode) (address_low_byte address_high_byte pointer
      indirect_address_low_byte indirect_address_high_byte : Option Nat)
      (checked_page_boundary : Bool)
  | BranchCrossesPageBoundary (opcode : Opcode) (address : Option Nat) (operand : Option Nat)
  | PushRegisterOnStack (value : Nat)
  | PreIncrementStackPointer (operation : Operation)
  | PullRegisterFromStack (operation : Operation)
  | PullPCLFromStack (operation : Operation)
  | PullPCHFromStack (operation : Operation) (pcl : Nat)
  | IncrementProgramCounter
  | WritePCHToStack (address : Nat)
  | WritePCLToStack (address : Nat)
  | SetProgramCounter (address : Nat)
  | WritingResult (address : Nat) (value : Nat) (dummy : Bool)
  deriving DecidableEq, Repr

/-- The CPU registers consulted by the modelled pipeline fragment
(cpu/registers.rs is a plain record; the status register is not needed by
the claims and is omitted). -/
structure Registers where
  program_counter : Nat
  a : Nat
  x : Nat
  y : Nat
  stack_pointer : Nat
  deriving DecidableEq, Repr

/-- One bus transaction issued through the MMU (modelled from the spec: the
MMU transfers exactly one byte per read_byte/write_byte call; its internal
dispatch is irrelevant to the pipeline claims, which only count and address
the calls). -/
inductive BusOp
  | read (address : Nat)
  | write (address : Nat) (value : Nat)
  deriving DecidableEq, Repr

/-- The Cpu together with its MMU, modelled as flat byte memory (the
addresses the claims touch are ordinary RAM). -/
structure CpuCore where
  state : CpuState
  registers : Registers
  mem : Nat → Nat

/-- Modelled from the spec: Opcode::execute (cpu/opcodes.rs is absent from
src/).  Only the operations used by the claims are modelled, and none of
them touches the bus during execute: LDA loads the operand into A and
finishes the instruction; STA hands off to WritingResult with dummy = false
(the store happens on the final cycle, matching the WritingResult arm of
Cpu::next and the canonical store cycle counts); NOP just finishes. -/
def executeOp (opcode : Opcode) (operand : Option Nat) (address : Option Nat) (c : CpuCore) :
    Option (CpuCore × List BusOp) :=
  match opcode.operation with
  | Operation.LDA =>
    some ({ c with
              registers := { c.registers with a := operand.getD 0 }
              state := CpuState.FetchOpcode }, [])
  | Operation.STA =>
    some ({ c with state := CpuState.WritingResult (address.getD 0) c.registers.a false }, [])
  | Operation.NOP =>
    some ({ c with state := CpuState.FetchOpcode }, [])

/-- One invocation of the CPU cycle step: the body of
<Cpu as Iterator>::next (cpu/mod.rs lines 333-887), instrumented with the
list of MMU transactions the cycle performs, in order.  Pipeline arms not
needed by any claim (the Absolute/AbsoluteIndexed/Immediate/Indirect/
IndirectX/Relative/ZeroPageX/ZeroPageY operand reads and the stack states)
are left unmodelled and return none. -/
def cpuNext (c : CpuCore) : Option (CpuCore × List BusOp) :=
  match c.state with
  | CpuState.FetchOpcode =>
    -- read_and_inc_program_counter, then index OPCODE_TABLE
    let opcode := opcodeTable (c.mem c.registers.program_counter)
    let c1 := { c with
                  registers := { c.registers with
                                   program_counter := c.registers.program_counter + 1 } }
    let ops := [BusOp.read c.registers.program_counter]
    match opcode.address_mode with
    | AddressingMode.Accumulator =>
      some ({ c1 with state := CpuState.ThrowawayRead opcode (some c1.registers.a) }, ops)
    | AddressingMode.Implied =>
      some ({ c1 with state := CpuState.ThrowawayRead opcode none }, ops)
    | _ =>
      some ({ c1 with state := CpuState.ReadingOperand opcode none none none none none false },
            ops)
  | CpuState.ThrowawayRead opcode operand =>
    -- cpu/mod.rs line 791: opcode.execute(self, operand, None) — note that no
    -- MMU access at all is issued on this cycle.
    executeOp opcode operand none c
  | CpuState.ReadingOperand opcode address_low_byte address_high_byte _pointer
      indirect_address_low_byte indirect_address_high_byte checked_page_boundary =>
    match opcode.address_mode with
    | AddressingMode.ZeroPage =>
      -- cpu/mod.rs lines 671-701
      (match address_low_byte with
       | none =>
         let operand := c.mem c.registers.program_counter
         let c1 := { c with
                       registers := { c.registers with
                                        program_counter := c.registers.program_counter + 1 } }
         (match opcode.operation.instruction_type with
          | InstructionType.Write =>
            -- Write instructions read the target on this same cycle and execute
            let address := operand
            (executeOp opcode (some (c1.mem address)) (some address) c1).map
              (fun p => (p.1, BusOp.read c.registers.program_counter :: BusOp.read address :: p.2))
          | _ =>
            some ({ c1 with
                      state := CpuState.ReadingOperand opcode (some operand) none none none none
                                 false },
                  [BusOp.read c.registers.program_counter]))
       | some low_byte =>
         let address := low_byte
         (executeOp opcode (some (c.mem address)) (some address) c).map
           (fun p => (p.1, BusOp.read address :: p.2)))
    | AddressingMode.IndirectYIndexed =>
      -- cpu/mod.rs lines 545-611
      (match indirect_address_low_byte, address_low_byte, address_high_byte with
       | none, _, _ =>
         -- Cycle 2 - Read the low byte of the indirect address
         let v := c.mem c.registers.program_counter
         let c1 := { c with
                       registers := { c.registers with
                                        program_counter := c.registers.program_counter + 1 } }
         some ({ c1 with
                   state := CpuState.ReadingOperand opcode address_low_byte address_high_byte
                              none (some v) indirect_address_high_byte false },
               [BusOp.read c.registers.program_counter])
       | some indirect_low_byte, none, _ =>
         -- Cycle 3 - Read the low byte of the actual address
         some ({ c with
                   state := CpuState.ReadingOperand opcode (some (c.mem indirect_low_byte))
                              address_high_byte none (some indirect_low_byte)
                              indirect_address_high_byte false },
               [BusOp.read indirect_low_byte])
       | some indirect_low_byte, some low_byte, none =>
         -- Cycle 4 - Read the high byte of the actual address
         -- (indirect_low_byte.wrapping_add(1) as u16)
         let high_address := (indirect_low_byte + 1) % 256
         some ({ c with
                   state := CpuState.ReadingOperand opcode (some low_byte)
                              (some (c.mem high_address)) (some indirect_low_byte)
                              (some indirect_low_byte) indirect_address_high_byte false },
               [BusOp.read high_address])
       | some indirect_low_byte, some low_byte, some high_byte =>
         -- Cycle 5(/6) - Read the operand and execute, checking (with >> 4!)
         -- for crossing a page boundary
         let unindexed_address := Nat.lor low_byte (high_byte <<< 8)
         let address := (unindexed_address + c.registers.y) % 65536
         if checked_page_boundary ∨ unindexed_address >>> 4 = address >>> 4 then
           (executeOp opcode (some (c.mem address)) (some address) c).map
             (fun p => (p.1, BusOp.read address :: p.2))
         else
           -- note: the penalty cycle issues no MMU access
           some ({ c with
                     state := CpuState.ReadingOperand opcode (some low_byte) (some high_byte)
                                none (some indirect_low_byte) indirect_address_high_byte true },
                 []))
    | _ => none
  | CpuState.WritingResult address value true =>
    -- cpu/mod.rs lines 872-874: the dummy cycle only flips the flag; no MMU
    -- write (nor read) is issued.
    some ({ c with state := CpuState.WritingResult address value false }, [])
  | CpuState.WritingResult address value false =>
    -- cpu/mod.rs lines 875-879: self.mmu.write_byte(address, value)
    some ({ c with
              state := CpuState.FetchOpcode
              mem := fun a => if a = address then value else c.mem a },
          [BusOp.write address value])
  | _ => none

/-- Iterates cpuNext, discarding the per-cycle bus logs. -/
def runCpu : Nat → CpuCore → Option CpuCore
  | 0, c => some c
  | n + 1, c =>
    match cpuNext c with
    | none => none
    | some (c1, _) => runCpu n c1

/-- Scenario for the bus-per-cycle invariant: the CPU one cycle into
STA $10 (opcode 0x85, a Write/ZeroPage instruction), about to run the
operand-fetch cycle; memory holds the operand byte 0x10 at the PC. -/
def staZeroPageCore : CpuCore :=
  { state := CpuState.ReadingOperand (opcodeTable 0x85) none none none none none false
    registers := { program_counter := 0, a := 7, x := 0, y := 0, stack_pointer := 0xFD }
    mem := fun a => if a = 0 then 0x10 else 0 }

/-- Scenario for the bus-per-cycle invariant: the CPU one cycle into NOP
(opcode 0xEA, Implied), about to run the ThrowawayRead cycle. -/
def nopThrowawayCore : CpuCore :=
  { state := CpuState.ThrowawayRead (opcodeTable 0xEA) none
    registers := { program_counter := 1, a := 0, x := 0, y := 0, stack_pointer := 0xFD }
    mem := fun _ => 0 }

/-- Scenario for the RMW double-write claim: a CPU about to run the dummy
cycle of WritingResult(address 0x10, value 5, dummy true). -/
def rmwDummyCore : CpuCore :=
  { state := CpuState.WritingResult 0x10 5 true
    registers := { program_counter := 0, a := 0, x := 0, y := 0, stack_pointer := 0xFD }
    mem := fun _ => 0 }

/-- Scenario for the (Indirect),Y page-cross claim: LDA ($20),Y at PC 0 with
Y = 8; the zero-page pointer at $20/$21 holds the base address $0008, so the
effective address $0010 lies in the same 256-byte page as the base. -/
def indYCore : CpuCore :=
  { state := CpuState.FetchOpcode
    registers := { program_counter := 0, a := 0, x := 0, y := 8, stack_pointer := 0xFD }
    mem := fun a =>
      if a = 0 then 0xB1
      else if a = 1 then 0x20
      else if a = 0x20 then 0x08
      else if a = 0x21 then 0
      else if a = 0x10 then 0x99
      else 0 }

/-- Scenario for the PRG-RAM write-through claim: the MMC3 PRG chip of a
16 KiB-PRG cartridge as mmc3::from_header builds it (PRG-RAM present and
zero-initialised). -/
def prgRamChip : MMC3PrgChip :=
  MMC3PrgChip.new (List.replicate 0x4000 0) 2 (some (fun _ => 0))

/-- A 32 KiB PRG image (4 banks of 8 KiB) whose every byte names its bank:
bank 0 is all 0, bank 1 all 1, bank 2 all 2, bank 3 all 3. -/
def bankTaggedRom : List Nat :=
  List.replicate 0x2000 0 ++ List.replicate 0x2000 1 ++
    List.replicate 0x2000 2 ++ List.replicate 0x2000 3

/-- Scenario for the PRG bank-mode claim: the MMC3 PRG chip of a 32 KiB-PRG
cartridge (4 banks). -/
def swapModeChip : MMC3PrgChip :=
  MMC3PrgChip.new bankTaggedRom 4 (some (fun _ => 0))

/-- Scenario for the in-range-offset claim: the MMC3 PRG chip of a 16 KiB-PRG
cartridge (2 banks, prg_rom of length 0x4000), fresh from mmc3::from_header,
before any CPU write. -/
def smallMmc3Chip : MMC3PrgChip :=
  MMC3PrgChip.new (List.replicate 0x4000 0) 2 (some (fun _ => 0))

/-- Scenario for the loader-error claim: a 0x6010-byte image whose first four
bytes are not the iNES magic, declaring 1 PRG unit, 1 CHR unit and mapper 4. -/
def wrongMagicBytes : List Nat :=
  [0, 0, 0, 0, 1, 1, 0x40, 0, 0, 0, 0, 0, 0, 0, 0, 0] ++ List.replicate 0x6000 0

/-- Scenario for the CHR-RAM MMC3 claim: a well-formed 0x4010-byte iNES image
(correct magic), 1 PRG unit, 0 CHR units (CHR-RAM), mapper 4. -/
def chrRamMmc3Bytes : List Nat :=
  [0x4E, 0x45, 0x53, 0x1A, 1, 0, 0x40, 0, 0, 0, 0, 0, 0, 0, 0, 0] ++
    List.replicate 0x4000 0

/-! ## Theorems -/

set_option maxRecDepth 8192

theorem land_one_mod (n : Nat) : Nat.land n 1 = n % 2 := Nat.and_one_is_mod n

theorem land_f0_ball : ∀ f < 256, Nat.land f 0xF0 = f / 16 * 16 := by decide

theorem lor_nibbles_ball : ∀ a < 16, ∀ b < 16, Nat.lor a (b * 16) = a + b * 16 := by decide

theorem mirroring_decode : ∀ f < 256,
    (f / 8 % 2 = 1 →
      (match (Nat.land f 1 == 0, Nat.land f 8 == 0) with
       | (true, true) => MirroringMode.Horizontal
       | (false, true) => MirroringMode.Vertical
       | (_, false) => MirroringMode.FourScreen) = MirroringMode.FourScreen) ∧
    (f / 8 % 2 = 0 → f % 2 = 1 →
      (match (Nat.land f 1 == 0, Nat.land f 8 == 0) with
       | (true, true) => MirroringMode.Horizontal
       | (false, true) => MirroringMode.Vertical
       | (_, false) => MirroringMode.FourScreen) = MirroringMode.Vertical) ∧
    (f / 8 % 2 = 0 → f % 2 = 0 →
      (match (Nat.land f 1 == 0, Nat.land f 8 == 0) with
       | (true, true) => MirroringMode.Horizontal
       | (false, true) => MirroringMode.Vertical
       | (_, false) => MirroringMode.FourScreen) = MirroringMode.Horizontal) := by
  decide

theorem has_ram_decode : ∀ f < 256, ((Nat.land f 2 == 2) = true ↔ f / 2 % 2 = 1) := by decide

/-- Claim C8: for all header bytes, CartridgeHeader::new yields a mapper ID
whose low nibble is the high nibble of byte 6 and whose high nibble is the
high nibble of byte 7; mirroring FourScreen whenever byte-6 bit 3 is set
(regardless of bit 0), otherwise Vertical when byte-6 bit 0 is 1 and
Horizontal when it is 0; and a battery-RAM flag equal to byte-6 bit 1. -/
theorem c8_header_parse (prg chr flags_6 flags_7 : Nat)
    (h6 : flags_6 < 256) (h7 : flags_7 < 256) :
    (CartridgeHeader.new prg chr flags_6 flags_7).mapper % 16 = flags_6 / 16 ∧
    (CartridgeHeader.new prg chr flags_6 flags_7).mapper / 16 = flags_7 / 16 ∧
    (flags_6 / 8 % 2 = 1 →
      (CartridgeHeader.new prg chr flags_6 flags_7).mirroring = MirroringMode.FourScreen) ∧
    (flags_6 / 8 % 2 = 0 → flags_6 % 2 = 1 →
      (CartridgeHeader.new prg chr flags_6 flags_7).mirroring = MirroringMode.Vertical) ∧
    (flags_6 / 8 % 2 = 0 → flags_6 % 2 = 0 →
      (CartridgeHeader.new prg chr flags_6 flags_7).mirroring = MirroringMode.Horizontal) ∧
    ((CartridgeHeader.new prg chr flags_6 flags_7).has_ram = true ↔ flags_6 / 2 % 2 = 1) := by
  have hm : (CartridgeHeader.new prg chr flags_6 flags_7).mapper =
      flags_6 / 16 + flags_7 / 16 * 16 := by
    show Nat.lor (flags_6 >>> 4) (Nat.land flags_7 0xF0) = flags_6 / 16 + flags_7 / 16 * 16
    rw [Nat.shiftRight_eq_div_pow, land_f0_ball flags_7 h7]
    have h1 : flags_6 / 2 ^ 4 = flags_6 / 16 := by norm_num
    rw [h1]
    exact lor_nibbles_ball (flags_6 / 16) (by omega) (flags_7 / 16) (by omega)
  refine ⟨?_, ?_, (mirroring_decode flags_6 h6).1, (mirroring_decode flags_6 h6).2.1,
    (mirroring_decode flags_6 h6).2.2, has_ram_decode flags_6 h6⟩
  · rw [hm]; omega
  · rw [hm]; omega

/-- Witness for C8 at flags_6 = 0x5A, flags_7 = 0x30. -/
theorem c8_header_parse_witness :
    (CartridgeHeader.new 1 1 0x5A 0x30).mapper % 16 = 0x5A / 16 ∧
    (CartridgeHeader.new 1 1 0x5A 0x30).mapper / 16 = 0x30 / 16 ∧
    (0x5A / 8 % 2 = 1 →
      (CartridgeHeader.new 1 1 0x5A 0x30).mirroring = MirroringMode.FourScreen) ∧
    (0x5A / 8 % 2 = 0 → 0x5A % 2 = 1 →
      (CartridgeHeader.new 1 1 0x5A 0x30).mirroring = MirroringMode.Vertical) ∧
    (0x5A / 8 % 2 = 0 → 0x5A % 2 = 0 →
      (CartridgeHeader.new 1 1 0x5A 0x30).mirroring = MirroringMode.Horizontal) ∧
    ((CartridgeHeader.new 1 1 0x5A 0x30).has_ram = true ↔ 0x5A / 2 % 2 = 1) :=
  c8_header_parse 1 1 0x5A 0x30 (by decide) (by decide)

/-- Claim C9: an MMC3 CPU write to an even address in $A000-$BFFF sets
name-table mirroring to Vertical when bit 0 of the value is 0 and to
Horizontal when it is 1, except that mirroring is left unchanged on a
four-screen cartridge; writes to odd addresses in that range leave it
unchanged. -/
theorem c9_mmc3_mirroring_register (c : MMC3ChrChip) (address value : Nat)
    (hlo : 0xA000 ≤ address) (hhi : address ≤ 0xBFFF) :
    (address % 2 = 0 → c.mirroring_mode ≠ MirroringMode.FourScreen →
      (c.cpu_write_byte address value).mirroring_mode =
        (if value % 2 = 0 then MirroringMode.Vertical else MirroringMode.Horizontal)) ∧
    (address % 2 = 1 → (c.cpu_write_byte address value).mirroring_mode = c.mirroring_mode) ∧
    (c.mirroring_mode = MirroringMode.FourScreen →
      (c.cpu_write_byte address value).mirroring_mode = MirroringMode.FourScreen) := by
  have hnot : ¬ (0x8000 ≤ address ∧ address ≤ 0x9FFF) := by omega
  have hin : 0xA000 ≤ address ∧ address ≤ 0xBFFF := ⟨hlo, hhi⟩
  unfold MMC3ChrChip.cpu_write_byte
  rw [if_neg hnot, if_pos hin, land_one_mod, land_one_mod]
  refine ⟨?_, ?_, ?_⟩
  · intro he hf
    rw [if_pos ⟨he, hf⟩]
  · intro ho
    have hc : ¬ (address % 2 = 0 ∧ c.mirroring_mode ≠ MirroringMode.FourScreen) := by
      intro hc
      obtain ⟨h1, _⟩ := hc
      omega
    rw [if_neg hc]
  · intro hf
    by_cases he : address % 2 = 0 ∧ c.mirroring_mode ≠ MirroringMode.FourScreen
    · exact absurd hf he.2
    · rw [if_neg he]
      exact hf

/-- Witness for C9: a fresh horizontal-mirroring MMC3 CHR chip written at
$A000 with value 1. -/
theorem c9_mmc3_mirroring_register_witness :
    (0xA000 % 2 = 0 →
      (MMC3ChrChip.new (List.replicate 0x2000 0) 2 MirroringMode.Horizontal).mirroring_mode ≠
        MirroringMode.FourScreen →
      ((MMC3ChrChip.new (List.replicate 0x2000 0) 2
          MirroringMode.Horizontal).cpu_write_byte 0xA000 1).mirroring_mode =
        (if 1 % 2 = 0 then MirroringMode.Vertical else MirroringMode.Horizontal)) ∧
    (0xA000 % 2 = 1 →
      ((MMC3ChrChip.new (List.replicate 0x2000 0) 2
          MirroringMode.Horizontal).cpu_write_byte 0xA000 1).mirroring_mode =
        (MMC3ChrChip.new (List.replicate 0x2000 0) 2 MirroringMode.Horizontal).mirroring_mode) ∧
    ((MMC3ChrChip.new (List.replicate 0x2000 0) 2 MirroringMode.Horizontal).mirroring_mode =
        MirroringMode.FourScreen →
      ((MMC3ChrChip.new (List.replicate 0x2000 0) 2
          MirroringMode.Horizontal).cpu_write_byte 0xA000 1).mirroring_mode =
        MirroringMode.FourScreen) :=
  c9_mmc3_mirroring_register
    (MMC3ChrChip.new (List.replicate 0x2000 0) 2 MirroringMode.Horizontal) 0xA000 1
    (by decide) (by decide)

/-- Claim C1 (failing evaluation): one invocation of the CPU cycle step does
not always perform exactly one MMU access outside the exempt internal
states.  The operand-fetch cycle of STA $10 (a Write/ZeroPage instruction in
ReadingOperand, not an exempt state) issues two MMU reads — the PC fetch and
a read of the target address — and the ThrowawayRead cycle of NOP issues
none, although the source comment on ThrowawayRead says cycle 2 always reads
the PC. -/
theorem c1_bus_transactions_per_cycle :
    (cpuNext staZeroPageCore).map (fun p => p.2) = some [BusOp.read 0, BusOp.read 0x10] ∧
    (cpuNext nopThrowawayCore).map (fun p => p.2) = some [] :=
  ⟨rfl, rfl⟩

/-- Counterexample to claim C2: in state WritingResult(0x10, 5, dummy=true)
— the first of the final two cycles of a read-modify-write instruction — the
cycle step performs no MMU write at all (the claim requires a write of the
original byte on this cycle); it only flips the dummy flag. -/
theorem c2_counterexample_dummy_cycle_writes_nothing :
    (cpuNext rmwDummyCore).map (fun p => p.2) = some [] ∧
    (cpuNext rmwDummyCore).map (fun p => p.1.state) =
      some (CpuState.WritingResult 0x10 5 false) :=
  ⟨rfl, rfl⟩

/-- Claim C2 as amended: for every read-modify-write instruction, of the
final two cycles only the second performs an MMU write — the dummy cycle
issues no bus access and only clears the dummy flag, and the final cycle
writes the modified byte to the operand address. -/
theorem c2_amended_rmw_final_cycles (regs : Registers) (mem : Nat → Nat)
    (address value : Nat) :
    cpuNext { state := CpuState.WritingResult address value true, registers := regs,
              mem := mem } =
      some ({ state := CpuState.WritingResult address value false, registers := regs,
              mem := mem }, []) ∧
    cpuNext { state := CpuState.WritingResult address value false, registers := regs,
              mem := mem } =
      some ({ state := CpuState.FetchOpcode, registers := regs,
              mem := fun a => if a = address then value else mem a },
            [BusOp.write address value]) :=
  ⟨rfl, rfl⟩

/-- Claim C3 (failing evaluation): LDA ($20),Y with base address $0008 and
Y = 8 — effective address $0010, in the same 256-byte page as the base —
still takes 6 cycles: after 5 cycles the CPU sits in the page-cross penalty
state and only the 6th cycle completes the instruction, because the source
compares unindexed_address >> 4 with address >> 4 (16-byte pages) instead of
the 256-byte page test the claim describes. -/
theorem c3_same_page_extra_cycle :
    (runCpu 5 indYCore).map (fun c => c.state) =
      some (CpuState.ReadingOperand (opcodeTable 0xB1) (some 8) (some 0) none (some 0x20)
        none true) ∧
    (runCpu 6 indYCore).map (fun c => c.state) = some CpuState.FetchOpcode ∧
    (runCpu 6 indYCore).map (fun c => c.registers.a) = some 0x99 ∧
    0x0008 / 0x100 = 0x0010 / 0x100 ∧ 0x0008 >>> 4 ≠ 0x0010 >>> 4 :=
  ⟨rfl, rfl, rfl, rfl, by decide⟩

/-- Claim C4 (failing evaluation): writing 0x42 to $6000 on an MMC3 chip
with PRG-RAM present and then reading $6000 returns 0, not 0x42 — the Rust
write mutates a copy of the Copy-typed RAM array and the store is lost. -/
theorem c4_prg_ram_write_lost :
    (prgRamChip.write_byte 0x6000 0x42).read_byte 0x6000 = 0 ∧
    (prgRamChip.write_byte 0x6000 0x42).read_byte 0x6000 ≠ 0x42 := by
  refine ⟨by decide, by decide⟩

/-- Claim C5 (failing evaluation): on a 4-bank MMC3, the single write of
0x40 to $8000 selects swap-high PRG mode; the claim (and the source's own
comments) then put the second-to-last bank (bank 2, ROM offset 0x4000, every
byte 2) behind $8000-$9FFF, but the code leaves prg_bank_offsets[0] at its
stale value 0, so reading $8000 yields bank 0's byte 0. -/
theorem c5_high_swap_low_window_stale :
    (swapModeChip.write_byte 0x8000 0x40).bank_mode = PRGBankMode.HighBankSwappable ∧
    (swapModeChip.write_byte 0x8000 0x40).prgRomIndex 0x8000 = 0 ∧
    (swapModeChip.write_byte 0x8000 0x40).read_byte 0x8000 = 0 ∧
    (swapModeChip.write_byte 0x8000 0x40).total_prg_banks = 4 ∧
    bankTaggedRom.getD 0x4000 0 = 2 ∧
    (0 : Nat) ≠ 2 := by
  have hl2 : (List.replicate 0x2000 (0 : Nat) ++ List.replicate 0x2000 1).length = 0x4000 := by
    rw [List.length_append, List.length_replicate, List.length_replicate]
  have hl3 : ((List.replicate 0x2000 (0 : Nat) ++ List.replicate 0x2000 1) ++
      List.replicate 0x2000 2).length = 0x6000 := by
    rw [List.length_append, hl2, List.length_replicate]
  have hbank : bankTaggedRom.getD 0x4000 0 = 2 := by
    show (((List.replicate 0x2000 (0 : Nat) ++ List.replicate 0x2000 1) ++
        List.replicate 0x2000 2) ++ List.replicate 0x2000 3).getD 0x4000 0 = 2
    rw [List.getD_append _ _ _ _ (by rw [hl3]; norm_num),
      List.getD_append_right _ _ _ _ (by rw [hl2]), hl2]
    rfl
  exact ⟨by decide, by decide, by decide, by decide, hbank, by decide⟩

/-- Claim C6 (failing evaluation): on a fresh 16 KiB-PRG MMC3 cartridge
(2 banks, prg_rom length 0x4000) and after no CPU write at all, a CPU read
of $A000 computes ROM index 0x4000 — equal to the ROM vector's length, out
of bounds.  The $A000-$BFFF arm of MMC3PrgChip::read_byte computes
adj_addr = address - 0x8000 (instead of - 0xA000), which lands at
0x2000 + prg_bank_offsets[1] = 0x4000. -/
theorem c6_mmc3_a000_read_out_of_range :
    smallMmc3Chip.prgRomIndex 0xA000 = 0x4000 ∧
    smallMmc3Chip.prg_rom.length = 0x4000 ∧
    ¬ smallMmc3Chip.prgRomIndex 0xA000 < smallMmc3Chip.prg_rom.length := by
  have hidx : smallMmc3Chip.prgRomIndex 0xA000 = 0x4000 := by decide
  have hlen : smallMmc3Chip.prg_rom.length = 0x4000 := by
    show (List.replicate 0x4000 (0 : Nat)).length = 0x4000
    rw [List.length_replicate]
  exact ⟨hidx, hlen, by omega⟩

/-- Counterexample to claim C7: a 0x6010-byte image whose first four bytes
are 0 (not the iNES magic $4E $45 $53 $1A) is loaded successfully — no
CartridgeFormat error is returned, because from_file never checks the magic
bytes. -/
theorem c7_counterexample_magic_unchecked :
    loadOutcome wrongMagicBytes = LoadOutcome.ok (headerOf wrongMagicBytes) ∧
    byteAt wrongMagicBytes 0 ≠ 0x4E ∧ byteAt wrongMagicBytes 1 ≠ 0x45 ∧
    byteAt wrongMagicBytes 2 ≠ 0x53 ∧ byteAt wrongMagicBytes 3 ≠ 0x1A := by
  have hlen : wrongMagicBytes.length = 0x6010 := by
    show ([0, 0, 0, 0, 1, 1, 0x40, 0, 0, 0, 0, 0, 0, 0, 0, 0] ++
        List.replicate 0x6000 (0 : Nat)).length = 0x6010
    rw [List.length_append, List.length_replicate]
    rfl
  have hhdr : headerOf wrongMagicBytes = CartridgeHeader.new 1 1 0x40 0 := by decide
  have h1 : ¬ wrongMagicBytes.length < 0x10 := by omega
  have h2 : ¬ wrongMagicBytes.length <
      0x10 + (headerOf wrongMagicBytes).prg_rom_16kb_units * 0x4000 +
        (headerOf wrongMagicBytes).chr_rom_8kb_units * 0x2000 := by
    rw [hhdr]
    show ¬ wrongMagicBytes.length < 0x6010
    omega
  refine ⟨?_, by decide, by decide, by decide, by decide⟩
  unfold loadOutcome
  rw [if_neg h1, if_neg h2, hhdr]
  decide

/-- Claim C7 as amended: load returns the header-too-short error exactly when
the input is shorter than 16 bytes; the size-mismatch error exactly when the
input passes the header check but the declared PRG/CHR sizes exceed the
file's total length; and the unsupported-mapper error exactly when both
checks pass and the header's mapper ID is not one of 0, 1, 2, 94, 3, 4.  The
iNES magic bytes are never checked. -/
theorem c7_amended_error_conditions (bytes : List Nat) :
    (loadOutcome bytes = LoadOutcome.errHeaderTooShort ↔ bytes.length < 0x10) ∧
    (loadOutcome bytes = LoadOutcome.errSizeMismatch ↔
      0x10 ≤ bytes.length ∧
      bytes.length < 0x10 + (headerOf bytes).prg_rom_16kb_units * 0x4000 +
        (headerOf bytes).chr_rom_8kb_units * 0x2000) ∧
    (loadOutcome bytes = LoadOutcome.errUnsupportedMapper (headerOf bytes).mapper ↔
      0x10 ≤ bytes.length ∧
      0x10 + (headerOf bytes).prg_rom_16kb_units * 0x4000 +
        (headerOf bytes).chr_rom_8kb_units * 0x2000 ≤ bytes.length ∧
      ¬ ((headerOf bytes).mapper = 0 ∨ (headerOf bytes).mapper = 1 ∨
         (headerOf bytes).mapper = 2 ∨ (headerOf bytes).mapper = 94 ∨
         (headerOf bytes).mapper = 3 ∨ (headerOf bytes).mapper = 4)) := by
  unfold loadOutcome dispatchMapper
  split_ifs <;> simp_all <;> omega

/-- Claim C10: a well-formed iNES image (correct magic, consistent sizes)
with mapper ID 4 and CHR-ROM unit count 0 — a CHR-RAM MMC3 cartridge — makes
load neither return a session nor a structured error: mmc3::from_header
unwraps the absent CHR-ROM and panics. -/
theorem c10_chr_ram_mmc3_load_panics :
    loadOutcome chrRamMmc3Bytes = LoadOutcome.panicked ∧
    (headerOf chrRamMmc3Bytes).mapper = 4 ∧
    (headerOf chrRamMmc3Bytes).chr_rom_8kb_units = 0 ∧
    byteAt chrRamMmc3Bytes 0 = 0x4E ∧ byteAt chrRamMmc3Bytes 1 = 0x45 ∧
    byteAt chrRamMmc3Bytes 2 = 0x53 ∧ byteAt chrRamMmc3Bytes 3 = 0x1A := by
  have hlen : chrRamMmc3Bytes.length = 0x4010 := by
    show ([0x4E, 0x45, 0x53, 0x1A, 1, 0, 0x40, 0, 0, 0, 0, 0, 0, 0, 0, 0] ++
        List.replicate 0x4000 (0 : Nat)).length = 0x4010
    rw [List.length_append, List.length_replicate]
    rfl
  have hhdr : headerOf chrRamMmc3Bytes = CartridgeHeader.new 1 0 0x40 0 := by decide
  have h1 : ¬ chrRamMmc3Bytes.length < 0x10 := by omega
  have h2 : ¬ chrRamMmc3Bytes.length <
      0x10 + (headerOf chrRamMmc3Bytes).prg_rom_16kb_units * 0x4000 +
        (headerOf chrRamMmc3Bytes).chr_rom_8kb_units * 0x2000 := by
    rw [hhdr]
    show ¬ chrRamMmc3Bytes.length < 0x4010
    omega
  refine ⟨?_, by decide, by decide, by decide, by decide, by decide, by decide⟩
  unfold loadOutcome
  rw [if_neg h1, if_neg h2, hhdr]
  decide

end Nes
